import Mathlib

/-!
Verification of the claude-code-terminal Obsidian plugin (src/main.ts).

The plugin pairs an xterm.js terminal surface with a node-pty shell process,
in two independently instantiable flavours: a floating overlay owned by
`ClaudeTerminalPlugin` and a docked sidebar view (`ClaudeTerminalView`).
We shallowly embed the plugin's mutable fields as a record `PluginState`
(handles become `Option Nat` ids), each method of main.ts as a function on
that record, and user/host events as an `Op` list folded over the state.
Side effects that the claims talk about (spawns, kills, writes into the
terminal surface, fit actions) are tracked as counters and lists.
Timer-based behaviour (the 300 ms auto-launch delay and the 50 ms resize
debounce) is modelled separately with explicit clocks.
-/

namespace ClaudeTerminal

/-- Settings record, main.ts lines 9-15. -/
structure ClaudeTerminalSettings where
  shellPath : String
  autoLaunchClaude : Bool
  fontSize : Nat
  floatingWidth : Nat
  floatingHeight : Nat
deriving DecidableEq, Repr

/-- Default settings, main.ts lines 17-23 (POSIX branch of the platform check:
`process.env.SHELL || "/bin/zsh"` modelled as the literal fallback). -/
def DEFAULT_SETTINGS : ClaudeTerminalSettings :=
  { shellPath := "/bin/zsh"
  , autoLaunchClaude := true
  , fontSize := 13
  , floatingWidth := 500
  , floatingHeight := 350 }

/-- The red error line both catch blocks write into the terminal surface
(main.ts lines 201 and 559). -/
def errLine : String := "\r\n\x1b[31mError: Failed to start terminal.\x1b[0m\r\n"

/-- The raw-error write of the docked catch block, main.ts line 202:
a template string wrapping the thrown error in CRLFs. -/
def rawErrWrite (e : String) : String := "\r\n" ++ e ++ "\r\n"

/-- State of the docked sidebar view `ClaudeTerminalView`, main.ts lines 26-31.
Handles are `Option Nat` ids; `output` records `terminal.write` calls on the
surface, `ptyWrites` records writes into the process input stream,
`timerPending` records whether the debounce timeout is scheduled and
uncancelled (the `fitDebounceTimer` field itself only ever holds the last
handle, it is never nulled by the code). -/
structure ViewState where
  terminal : Option Nat
  fitAddon : Option Nat
  ptyProcess : Option Nat
  resizeObserver : Option Nat
  fitDebounceTimer : Option Nat
  timerPending : Bool
  output : List String
  ptyWrites : List String
deriving DecidableEq, Repr

/-- State of `ClaudeTerminalPlugin` (main.ts lines 232-240) together with the
bookkeeping our claims need: `nextId` allocates fresh handle ids,
`spawnCount` counts successful `nodePty.spawn` calls, `killed` records the
pids passed to `ptyProcess.kill()`, `fitCount` counts `fitAddon.fit()`
executions, `floatingOutput` records writes into the floating surface. -/
structure PluginState where
  settings : ClaudeTerminalSettings
  floatingContainer : Bool
  floatingTerminal : Option Nat
  floatingFitAddon : Option Nat
  floatingPtyProcess : Option Nat
  floatingResizeObserver : Option Nat
  isFloatingVisible : Bool
  floatingFitDebounceTimer : Option Nat
  floatingTimerPending : Bool
  floatingOutput : List String
  floatingPtyWrites : List String
  dockedView : Option ViewState
  nextId : Nat
  spawnCount : Nat
  killed : List Nat
  fitCount : Nat
deriving DecidableEq, Repr

/-- Freshly loaded plugin, before `onLayoutReady` has run (main.ts 232-279):
every handle null, floating not visible, no container yet. -/
def initState : PluginState :=
  { settings := DEFAULT_SETTINGS
  , floatingContainer := false
  , floatingTerminal := none
  , floatingFitAddon := none
  , floatingPtyProcess := none
  , floatingResizeObserver := none
  , isFloatingVisible := false
  , floatingFitDebounceTimer := none
  , floatingTimerPending := false
  , floatingOutput := []
  , floatingPtyWrites := []
  , dockedView := none
  , nextId := 0
  , spawnCount := 0
  , killed := []
  , fitCount := 0 }

/-- `ClaudeTerminalView.startPty`, main.ts lines 154-204. A spawn attempt
either yields a pid (`.ok pid`) or throws (`.error e`). Guard: returns
immediately when the terminal surface is null. On failure the catch block
writes the red error line AND the raw error text into the surface
(lines 201-202) and leaves the process handle untouched. -/
def viewStartPty (res : Except String Nat) (v : ViewState) : ViewState :=
  match v.terminal with
  | none => v
  | some _ =>
    match res with
    | .ok pid => { v with ptyProcess := some pid }
    | .error e => { v with output := v.output ++ [errLine, rawErrWrite e] }

/-- `ClaudeTerminalView.destroyTerminal`, main.ts lines 206-221: disconnect
and null the observer, kill and null the process, dispose and null the
terminal, null the fit addon. The debounce timer field is NOT touched. -/
def destroyTerminalV (v : ViewState) : ViewState :=
  { v with resizeObserver := none
         , ptyProcess := none
         , terminal := none
         , fitAddon := none }

/-- `ClaudeTerminalView.sendClear`, main.ts lines 80-83:
`this.ptyProcess?.write("clear\r")`. -/
def viewSendClear (v : ViewState) : ViewState :=
  match v.ptyProcess with
  | none => v
  | some _ => { v with ptyWrites := v.ptyWrites ++ ["clear\r"] }

/-- `createFloatingContainer`, main.ts lines 324-375: builds the container
DOM (hidden by the `is-hidden` class) and its buttons. -/
def createFloatingContainer (s : PluginState) : PluginState :=
  { s with floatingContainer := true }

/-- `initializeFloatingTerminal`, main.ts lines 457-504: bails out when the
container's content node is missing; otherwise creates a fresh Terminal and
FitAddon, opens the terminal (empty screen) and installs the resize
observer. The deferred double-rAF fit+spawn is a separate event
(`Op.rafFloating`). -/
def initializeFloatingTerminal (s : PluginState) : PluginState :=
  if s.floatingContainer then
    { s with floatingTerminal := some s.nextId
           , floatingFitAddon := some (s.nextId + 1)
           , floatingResizeObserver := some (s.nextId + 2)
           , nextId := s.nextId + 3
           , floatingOutput := [] }
  else s

/-- `startFloatingPty`, main.ts lines 512-561. Guard: returns when the
floating terminal is null. On success stores the pid and (one spawn
performed). On failure the catch block (lines 557-560) writes ONLY the red
error line into the surface — unlike the docked catch, no raw error text. -/
def startFloatingPty (res : Except String Nat) (s : PluginState) : PluginState :=
  match s.floatingTerminal with
  | none => s
  | some _ =>
    match res with
    | .ok pid => { s with floatingPtyProcess := some pid, spawnCount := s.spawnCount + 1 }
    | .error _ => { s with floatingOutput := s.floatingOutput ++ [errLine] }

/-- The deferred double-`requestAnimationFrame` callback of
`initializeFloatingTerminal`, main.ts lines 484-492: when fit addon and
terminal are still present, fit then `startFloatingPty` then focus. -/
def rafFloating (res : Except String Nat) (s : PluginState) : PluginState :=
  match s.floatingFitAddon, s.floatingTerminal with
  | some _, some _ => startFloatingPty res { s with fitCount := s.fitCount + 1 }
  | _, _ => s

/-- `destroyFloatingTerminal`, main.ts lines 563-583: disconnect and null
the observer; kill and null the process (the killed pid is recorded);
dispose and null the terminal; null the fit addon; empty the content node.
The debounce timer is NOT cleared. -/
def destroyFloatingTerminal (s : PluginState) : PluginState :=
  { s with floatingResizeObserver := none
         , killed := s.killed ++ s.floatingPtyProcess.toList
         , floatingPtyProcess := none
         , floatingTerminal := none
         , floatingFitAddon := none }

/-- `showFloatingTerminal`, main.ts lines 593-606: no-op without the
container; otherwise unhide, set the visibility flag, and either lazily
initialize the terminal (first show) or just fit/scroll/focus the existing
one — no re-initialization, no spawn. -/
def showFloatingTerminal (s : PluginState) : PluginState :=
  if s.floatingContainer then
    match s.floatingTerminal with
    | none => initializeFloatingTerminal { s with isFloatingVisible := true }
    | some _ => { s with isFloatingVisible := true, fitCount := s.fitCount + 1 }
  else s

/-- `hideFloatingTerminal`, main.ts lines 608-612: no-op without the
container; otherwise hide the surface only — handles untouched. -/
def hideFloatingTerminal (s : PluginState) : PluginState :=
  if s.floatingContainer then { s with isFloatingVisible := false } else s

/-- `toggleFloatingTerminal`, main.ts lines 585-591. -/
def toggleFloatingTerminal (s : PluginState) : PluginState :=
  if s.isFloatingVisible then hideFloatingTerminal s else showFloatingTerminal s

/-- The close button handler, main.ts lines 360-363: hide, then destroy. -/
def closeButtonClick (s : PluginState) : PluginState :=
  destroyFloatingTerminal (hideFloatingTerminal s)

/-- The host-side effect of `setViewState`+`revealLeaf` in `openInSidebar`
(main.ts lines 304-311): any previous terminal view on the leaf is closed
(its `onClose` destroys its session, main.ts 85-87), then a fresh
`ClaudeTerminalView` opens: `onOpen` → `initializeTerminal` (terminal,
fit addon, observer) → deferred `startPty` with outcome `res`. -/
def setDockedView (res : Except String Nat) (s : PluginState) : PluginState :=
  let s1 :=
    match s.dockedView with
    | some v => { s with dockedView := none, killed := s.killed ++ v.ptyProcess.toList }
    | none => s
  let v0 : ViewState :=
    { terminal := some s1.nextId
    , fitAddon := some (s1.nextId + 1)
    , ptyProcess := none
    , resizeObserver := some (s1.nextId + 2)
    , fitDebounceTimer := none
    , timerPending := false
    , output := []
    , ptyWrites := [] }
  { s1 with dockedView := some (viewStartPty res v0)
          , nextId := s1.nextId + 3
          , spawnCount := s1.spawnCount + (match res with | .ok _ => 1 | .error _ => 0) }

/-- `openInSidebar`, main.ts lines 297-312: ONLY when the floating terminal
is currently visible, hide and destroy it; then place the docked view. -/
def openInSidebar (res : Except String Nat) (s : PluginState) : PluginState :=
  let s1 := if s.isFloatingVisible
            then destroyFloatingTerminal (hideFloatingTerminal s)
            else s
  setDockedView res s1

/-- `undockToFloating`, main.ts lines 314-320: detach the sidebar leaves
(each detached view's `onClose` runs `destroyTerminal`, killing its pty),
then `showFloatingTerminal`. -/
def undockToFloating (s : PluginState) : PluginState :=
  let s1 :=
    match s.dockedView with
    | some v => { s with dockedView := none, killed := s.killed ++ v.ptyProcess.toList }
    | none => s
  showFloatingTerminal s1

/-- The floating clear button, main.ts line 342:
`this.floatingPtyProcess?.write("clear\r")`. -/
def floatingClearClick (s : PluginState) : PluginState :=
  match s.floatingPtyProcess with
  | none => s
  | some _ => { s with floatingPtyWrites := s.floatingPtyWrites ++ ["clear\r"] }

/-- The floating `ResizeObserver` callback, main.ts lines 494-502: only runs
while the observer is connected; clears any previous debounce timeout and
schedules a new one (a fresh handle, pending). -/
def floatingResizeNotify (s : PluginState) : PluginState :=
  match s.floatingResizeObserver with
  | none => s
  | some _ =>
    { s with floatingFitDebounceTimer := some s.nextId
           , nextId := s.nextId + 1
           , floatingTimerPending := true }

/-- The debounce timeout body, main.ts lines 496-501: fires only if still
pending; the body is guarded — it fits and scrolls only when fit addon,
terminal AND process are all live, otherwise it does nothing. -/
def floatingDebounceFire (s : PluginState) : PluginState :=
  if s.floatingTimerPending then
    match s.floatingFitAddon, s.floatingTerminal, s.floatingPtyProcess with
    | some _, some _, some _ => { s with floatingTimerPending := false, fitCount := s.fitCount + 1 }
    | _, _, _ => { s with floatingTimerPending := false }
  else s

/-- The docked clear action relayed through the pane menu, main.ts 72-77. -/
def dockedSendClear (s : PluginState) : PluginState :=
  match s.dockedView with
  | some v => { s with dockedView := some (viewSendClear v) }
  | none => s

/-- Process handle of the docked session, if any. -/
def dockedPty (s : PluginState) : Option Nat :=
  match s.dockedView with
  | some v => v.ptyProcess
  | none => none

/-- Terminal-surface handle of the docked session, if any. -/
def dockedTerminal (s : PluginState) : Option Nat :=
  match s.dockedView with
  | some v => v.terminal
  | none => none

instance {α β : Type} [DecidableEq α] [DecidableEq β] : DecidableEq (Except α β) := fun x y =>
  match x, y with
  | .ok a, .ok b =>
      if h : a = b then .isTrue (congrArg Except.ok h)
      else .isFalse (fun c => h (Except.ok.inj c))
  | .error a, .error b =>
      if h : a = b then .isTrue (congrArg Except.error h)
      else .isFalse (fun c => h (Except.error.inj c))
  | .ok _, .error _ => .isFalse (fun c => Except.noConfusion c)
  | .error _, .ok _ => .isFalse (fun c => Except.noConfusion c)

/-- Events the plugin reacts to. Spawn outcomes are carried on the ops that
can reach a spawn (`.ok pid` = the OS grants pid, `.error e` = the spawn or
the native-module load throws `e`). -/
inductive Op where
  | layoutReady
  | showFloating
  | rafFloating (res : Except String Nat)
  | hideFloating
  | toggleFloating
  | closeFloating
  | openDocked (res : Except String Nat)
  | undock
  | floatingClear
  | dockedClear
  | resizeNotify
  | timerFire
deriving DecidableEq, Repr

/-- Dispatch one event to the corresponding main.ts handler. -/
def applyOp (s : PluginState) : Op → PluginState
  | .layoutReady => createFloatingContainer s
  | .showFloating => showFloatingTerminal s
  | .rafFloating res => rafFloating res s
  | .hideFloating => hideFloatingTerminal s
  | .toggleFloating => toggleFloatingTerminal s
  | .closeFloating => closeButtonClick s
  | .openDocked res => openInSidebar res s
  | .undock => undockToFloating s
  | .floatingClear => floatingClearClick s
  | .dockedClear => dockedSendClear s
  | .resizeNotify => floatingResizeNotify s
  | .timerFire => floatingDebounceFire s

/-- Run a sequence of events. -/
def run (ops : List Op) (s : PluginState) : PluginState :=
  ops.foldl applyOp s

/-! ## Process spawn contract (claim C8)

`nodePty.spawn` is called with identical argument shapes at main.ts
lines 170-180 (docked `startPty`) and 528-538 (`startFloatingPty`). -/

/-- The full argument tuple of a `nodePty.spawn(file, args, options)` call.
The environment is a partial map from variable names to values. -/
structure SpawnCall where
  file : String
  args : List String
  ptyName : String
  cols : Nat
  rows : Nat
  cwd : String
  env : String → Option String

/-- JS object-spread semantics of `{ ...base, k: v }`: the later literal key
overrides the spread-in binding for `k` and leaves every other key alone. -/
def jsSpreadSet (base : String → Option String) (k v : String) : String → Option String :=
  fun x => if x = k then some v else base x

/-- The spawn call built by the code (main.ts 170-180 and 528-538):
`nodePty.spawn(settings.shellPath, [], { name: "xterm-256color",
cols: terminal.cols, rows: terminal.rows, cwd: vaultPath,
env: { ...process.env, TERM: "xterm-256color", COLORTERM: "truecolor" } })`,
where `cols`/`rows` are the terminal surface's current grid and `vaultPath`
is the vault adapter's base path. -/
def ptySpawnCall (settings : ClaudeTerminalSettings) (cols rows : Nat)
    (vaultPath : String) (penv : String → Option String) : SpawnCall :=
  { file := settings.shellPath
  , args := []
  , ptyName := "xterm-256color"
  , cols := cols
  , rows := rows
  , cwd := vaultPath
  , env := jsSpreadSet (jsSpreadSet penv "TERM" "xterm-256color") "COLORTERM" "truecolor" }

/-- Modelled from the spec: §6 "Process spawn contract" / §4.2 Activate —
executable = settings shell path, no arguments, pseudo-terminal type
"xterm-256color", initial columns/rows from the terminal's current grid,
working directory = the host's root data directory, environment = inherited
process environment with TERM forced to "xterm-256color" and COLORTERM
forced to "truecolor". -/
def specSpawnContract (settings : ClaudeTerminalSettings) (cols rows : Nat)
    (dataRoot : String) (penv : String → Option String) : SpawnCall :=
  { file := settings.shellPath
  , args := []
  , ptyName := "xterm-256color"
  , cols := cols
  , rows := rows
  , cwd := dataRoot
  , env := fun x =>
      if x = "TERM" then some "xterm-256color"
      else if x = "COLORTERM" then some "truecolor"
      else penv x }

/-! ## Auto-launch timing (claim C7)

The floating auto-launch timeout (main.ts 552-556) is
`setTimeout(() => this.floatingPtyProcess?.write("clear && claude\r"), 300)`.
Its handle is never stored, so `destroyFloatingTerminal` cannot cancel it,
and its body reads the plugin's CURRENT `floatingPtyProcess` field at fire
time — not the process that was live when it was scheduled. We model the
plugin clock, the current process field (activation id paired with its
spawn time), the queue of pending timeouts (due times; scheduling order is
due order because the delay is the constant 300 and the clock is monotone),
the spawn log, and the injections performed (fire time paired with the id
of the activation whose process was written into). -/

structure AutoLaunchState where
  now : Nat
  pty : Option (Nat × Nat)
  timers : List Nat
  injections : List (Nat × Nat)
  spawns : List (Nat × Nat)
  nextAid : Nat
deriving DecidableEq, Repr

/-- Plugin freshly loaded at time `t0`: no process, no pending timeout. -/
def aInit (t0 : Nat) : AutoLaunchState :=
  { now := t0, pty := none, timers := [], injections := [], spawns := [], nextAid := 0 }

inductive AOp where
  | advance (d : Nat)
  | spawn (autoLaunch : Bool)
  | close
  | fire
deriving DecidableEq, Repr

/-- Event-loop step. `spawn` is a successful `startFloatingPty`: the field
now holds the fresh activation and, when `autoLaunchClaude` is set, exactly
one timeout due 300 ms out is appended (main.ts 552-556). `close` is
hide+destroy: it kills and nulls the process field but — the timeout handle
never being stored — cancels nothing. `fire` executes the earliest pending
timeout once it is due; its body writes into whatever process the plugin
field holds NOW, or nothing when the field is null (the optional chain). -/
def astep (s : AutoLaunchState) : AOp → AutoLaunchState
  | .advance d => { s with now := s.now + d }
  | .spawn auto =>
      { s with pty := some (s.nextAid, s.now)
             , spawns := s.spawns ++ [(s.nextAid, s.now)]
             , nextAid := s.nextAid + 1
             , timers := s.timers ++ (if auto then [s.now + 300] else []) }
  | .close => { s with pty := none }
  | .fire =>
      match s.timers with
      | [] => s
      | tf :: rest =>
        if tf ≤ s.now then
          { s with timers := rest
                 , injections := s.injections ++
                     (match s.pty with
                      | some (aid, _) => [(s.now, aid)]
                      | none => []) }
        else s

def arun (ops : List AOp) (s : AutoLaunchState) : AutoLaunchState :=
  ops.foldl astep s

/-- The close-then-reopen-within-300ms schedule: activate at t=0 (timeout A
due at 300), close at t=100 (timeout A survives), reactivate at t=150
(timeout B due at 450), then let both timeouts fire when due. -/
def staleTimerOps : List AOp :=
  [AOp.spawn true, AOp.advance 100, AOp.close, AOp.advance 50, AOp.spawn true,
   AOp.advance 150, AOp.fire, AOp.advance 150, AOp.fire]

/-! ## Resize debounce (claim C9)

The floating `ResizeObserver` callback (main.ts 494-502; the docked copy is
at 136-145) clears any pending timeout and schedules a new one 50 ms out;
when a timeout finally fires with the session live it performs one
`fitAddon.fit()` (and hence at most one `ptyProcess.resize` via the
`onResize` hook, which only fires when the grid actually changed). -/

structure DebounceState where
  now : Nat
  pendingFit : Option Nat
  live : Bool
  fits : Nat
deriving DecidableEq, Repr

inductive DOp where
  | advance (d : Nat)
  | notify
  | fire
deriving DecidableEq, Repr

/-- One debounce event: `notify` is the observer callback
(`clearTimeout` + `setTimeout(..., 50)`), `fire` is a due timeout executing
its guarded body, `advance` is the clock. -/
def dstep (s : DebounceState) : DOp → DebounceState
  | .advance d => { s with now := s.now + d }
  | .notify => { s with pendingFit := some (s.now + 50) }
  | .fire =>
    match s.pendingFit with
    | some tf =>
      if tf ≤ s.now then
        { s with pendingFit := none, fits := s.fits + (if s.live then 1 else 0) }
      else s
    | none => s

def drun (ops : List DOp) (s : DebounceState) : DebounceState :=
  ops.foldl dstep s

/-- A live session with no pending debounce timeout at time `t0`. -/
def initDeb (t0 : Nat) : DebounceState :=
  { now := t0, pendingFit := none, live := true, fits := 0 }

/-- A burst continuation: after each gap `d` the event loop gets a chance to
fire the timeout, then the next resize notification arrives. -/
def burstTail : List Nat → List DOp
  | [] => []
  | d :: ds => DOp.advance d :: DOp.fire :: DOp.notify :: burstTail ds

/-- A burst of resize notifications separated by the gaps `ds`, followed by
a 50 ms quiet period after which the pending timeout fires. -/
def burstThenQuiet (ds : List Nat) : List DOp :=
  DOp.notify :: burstTail ds ++ [DOp.advance 50, DOp.fire]

/-! ## Invariants and sample states -/

/-- Session invariant of spec §3: a Session's process handle is non-null
only while its surface handle is non-null — for the floating session and
for the docked one. -/
def sessionInv (s : PluginState) : Prop :=
  (s.floatingPtyProcess ≠ none → s.floatingTerminal ≠ none) ∧
  (dockedPty s ≠ none → dockedTerminal s ≠ none)

instance (s : PluginState) : Decidable (sessionInv s) := by
  unfold sessionInv; infer_instance

/-- Auto-launch invariant along spawn-free continuations of a single
enabled activation at `t0` (activation id 0): the process field is that
activation's or null, and either its single timeout is still pending with
no injection yet, or the timeout has been consumed with at most one
injection, made at or after `t0 + 300` into activation 0. -/
def aInv (t0 : Nat) (s : AutoLaunchState) : Prop :=
  (s.pty = none ∨ s.pty = some (0, t0)) ∧
  ((s.timers = [t0 + 300] ∧ s.injections = []) ∨
   (s.timers = [] ∧ s.injections.length ≤ 1 ∧
     ∀ x ∈ s.injections, t0 + 300 ≤ x.1 ∧ x.2 = 0))

/-- Strengthening of `aInv` along close-free (and spawn-free) runs: the
process stays live, so consuming the timeout injects exactly once. -/
def aInvLive (t0 : Nat) (s : AutoLaunchState) : Prop :=
  s.pty = some (0, t0) ∧
  ((s.timers = [t0 + 300] ∧ s.injections = []) ∨
   (s.timers = [] ∧ s.injections.length = 1 ∧
     ∀ x ∈ s.injections, t0 + 300 ≤ x.1 ∧ x.2 = 0))

/-- Floating terminal constructed (via show) but not yet activated:
the double-rAF callback has not run, no process was spawned. -/
def floatConstructedState : PluginState :=
  run [Op.layoutReady, Op.showFloating] initState

/-- Floating terminal constructed and activated with a successful spawn of
pid 0. -/
def floatLiveState : PluginState :=
  run [Op.layoutReady, Op.showFloating, Op.rafFloating (Except.ok 0)] initState

/-- A resize notification arrives while the floating terminal is up, then
the close button destroys the session before the 50 ms timeout fires. -/
def floatClosedWithTimerState : PluginState :=
  run [Op.layoutReady, Op.showFloating, Op.resizeNotify, Op.closeFloating] initState

/-- A freshly constructed docked view whose spawn has not been attempted. -/
def sampleView : ViewState :=
  { terminal := some 0, fitAddon := some 1, ptyProcess := none
  , resizeObserver := some 2, fitDebounceTimer := none, timerPending := false
  , output := [], ptyWrites := [] }

/-! ## Theorems -/

theorem run_cons (op : Op) (ops : List Op) (s : PluginState) :
    run (op :: ops) s = run ops (applyOp s op) := rfl

theorem sessionInv_show (s : PluginState) (h : sessionInv s) :
    sessionInv (showFloatingTerminal s) := by
  obtain ⟨h1, h2⟩ := h
  by_cases hc : s.floatingContainer = true <;>
    cases ht : s.floatingTerminal <;>
      simp_all [sessionInv, showFloatingTerminal, initializeFloatingTerminal,
        dockedPty, dockedTerminal]

theorem sessionInv_startFloatingPty (res : Except String Nat) (s : PluginState)
    (h : sessionInv s) : sessionInv (startFloatingPty res s) := by
  obtain ⟨h1, h2⟩ := h
  cases ht : s.floatingTerminal <;> cases res <;>
    simp_all [sessionInv, startFloatingPty, dockedPty, dockedTerminal]

theorem sessionInv_raf (res : Except String Nat) (s : PluginState)
    (h : sessionInv s) : sessionInv (rafFloating res s) := by
  cases ha : s.floatingFitAddon <;> cases ht : s.floatingTerminal <;>
    simp only [rafFloating, ha, ht]
  · exact h
  · exact h
  · exact h
  · apply sessionInv_startFloatingPty
    obtain ⟨h1, h2⟩ := h
    exact ⟨by simp [ht], by simpa [dockedPty, dockedTerminal] using h2⟩

theorem sessionInv_hide (s : PluginState) (h : sessionInv s) :
    sessionInv (hideFloatingTerminal s) := by
  obtain ⟨h1, h2⟩ := h
  by_cases hc : s.floatingContainer = true <;>
    simp_all [sessionInv, hideFloatingTerminal, dockedPty, dockedTerminal]

theorem sessionInv_destroy (s : PluginState) (h : sessionInv s) :
    sessionInv (destroyFloatingTerminal s) :=
  ⟨by simp [destroyFloatingTerminal], by
    have h2 := h.2
    simpa [destroyFloatingTerminal, dockedPty, dockedTerminal] using h2⟩

theorem sessionInv_setDocked (res : Except String Nat) (s : PluginState)
    (h : sessionInv s) : sessionInv (setDockedView res s) := by
  obtain ⟨h1, h2⟩ := h
  cases hd : s.dockedView <;> cases res <;>
    simp_all [sessionInv, setDockedView, viewStartPty, dockedPty, dockedTerminal]

theorem sessionInv_openInSidebar (res : Except String Nat) (s : PluginState)
    (h : sessionInv s) : sessionInv (openInSidebar res s) := by
  unfold openInSidebar
  by_cases hv : s.isFloatingVisible = true
  · simp only [hv, if_true]
    exact sessionInv_setDocked res _ (sessionInv_destroy _ (sessionInv_hide s h))
  · rw [if_neg hv]
    exact sessionInv_setDocked res s h

theorem sessionInv_undock (s : PluginState) (h : sessionInv s) :
    sessionInv (undockToFloating s) := by
  obtain ⟨h1, h2⟩ := h
  unfold undockToFloating
  apply sessionInv_show
  cases hd : s.dockedView <;>
    simp_all [sessionInv, dockedPty, dockedTerminal]

theorem sessionInv_applyOp (s : PluginState) (op : Op) (h : sessionInv s) :
    sessionInv (applyOp s op) := by
  obtain ⟨h1, h2⟩ := h
  cases op with
  | layoutReady => exact ⟨h1, h2⟩
  | showFloating => exact sessionInv_show s ⟨h1, h2⟩
  | rafFloating res => exact sessionInv_raf res s ⟨h1, h2⟩
  | hideFloating => exact sessionInv_hide s ⟨h1, h2⟩
  | toggleFloating =>
      show sessionInv (toggleFloatingTerminal s)
      unfold toggleFloatingTerminal
      by_cases hv : s.isFloatingVisible = true
      · simp only [hv, if_true]
        exact sessionInv_hide s ⟨h1, h2⟩
      · rw [if_neg hv]
        exact sessionInv_show s ⟨h1, h2⟩
  | closeFloating =>
      show sessionInv (closeButtonClick s)
      exact sessionInv_destroy _ (sessionInv_hide s ⟨h1, h2⟩)
  | openDocked res => exact sessionInv_openInSidebar res s ⟨h1, h2⟩
  | undock => exact sessionInv_undock s ⟨h1, h2⟩
  | floatingClear =>
      show sessionInv (floatingClearClick s)
      cases hp : s.floatingPtyProcess <;>
        simp_all [sessionInv, floatingClearClick, dockedPty, dockedTerminal]
  | dockedClear =>
      show sessionInv (dockedSendClear s)
      cases hd : s.dockedView with
      | none => simp_all [sessionInv, dockedSendClear, dockedPty, dockedTerminal]
      | some v =>
          cases hp : v.ptyProcess <;>
            simp_all [sessionInv, dockedSendClear, viewSendClear, dockedPty, dockedTerminal]
  | resizeNotify =>
      show sessionInv (floatingResizeNotify s)
      cases ho : s.floatingResizeObserver <;>
        simp_all [sessionInv, floatingResizeNotify, dockedPty, dockedTerminal]
  | timerFire =>
      show sessionInv (floatingDebounceFire s)
      unfold floatingDebounceFire
      by_cases hp : s.floatingTimerPending = true
      · simp only [hp, if_true]
        cases ha : s.floatingFitAddon <;> cases ht : s.floatingTerminal <;>
          cases hq : s.floatingPtyProcess <;>
            simp_all [sessionInv, dockedPty, dockedTerminal]
      · rw [if_neg hp]
        exact ⟨h1, h2⟩

theorem sessionInv_run (ops : List Op) (s : PluginState) (h : sessionInv s) :
    sessionInv (run ops s) := by
  induction ops generalizing s with
  | nil => exact h
  | cons op ops ih => exact ih (applyOp s op) (sessionInv_applyOp s op h)

/-- C6: in every state reachable from plugin load by any sequence of
operations (layout-ready, show/hide/toggle, activation, close, dock, undock,
clear, resize notifications and debounce firings), the process handle — of
the floating session and of the docked one — is non-null only while the
corresponding terminal-surface handle is non-null; and destroying the
surface always kills the process (its pid is appended to the kill log) and
nulls the process handle. -/
theorem claim6_pty_only_with_surface :
    (∀ ops : List Op, sessionInv (run ops initState)) ∧
    (∀ s : PluginState,
        (destroyFloatingTerminal s).floatingPtyProcess = none ∧
        (destroyFloatingTerminal s).killed = s.killed ++ s.floatingPtyProcess.toList ∧
        (destroyTerminalV sampleView).ptyProcess = none) :=
  ⟨fun ops => sessionInv_run ops initState (by decide),
   fun _ => ⟨rfl, rfl, rfl⟩⟩

/-- C6 witness: the invariant holds on a concrete run that exercises
construct, activate, clear, resize, destroy and dock. -/
theorem claim6_witness :
    sessionInv (run [Op.layoutReady, Op.showFloating, Op.rafFloating (Except.ok 0),
      Op.floatingClear, Op.resizeNotify, Op.timerFire, Op.closeFloating,
      Op.openDocked (Except.ok 1)] initState) :=
  claim6_pty_only_with_surface.1 _

/-- C4: Destroy is idempotent. Running `destroyFloatingTerminal` twice
equals running it once; after a destroy the surface, process, fit-addon and
observer handles are all null; destroying the never-constructed,
never-activated initial state is a no-op that returns it unchanged; and the
docked view's `destroyTerminal` has the same properties. -/
theorem claim4_destroy_idempotent :
    (∀ s : PluginState,
        destroyFloatingTerminal (destroyFloatingTerminal s) = destroyFloatingTerminal s ∧
        (destroyFloatingTerminal s).floatingTerminal = none ∧
        (destroyFloatingTerminal s).floatingPtyProcess = none ∧
        (destroyFloatingTerminal s).floatingFitAddon = none ∧
        (destroyFloatingTerminal s).floatingResizeObserver = none) ∧
    destroyFloatingTerminal initState = initState ∧
    (∀ v : ViewState,
        destroyTerminalV (destroyTerminalV v) = destroyTerminalV v ∧
        (destroyTerminalV v).terminal = none ∧
        (destroyTerminalV v).ptyProcess = none ∧
        (destroyTerminalV v).fitAddon = none ∧
        (destroyTerminalV v).resizeObserver = none) := by
  refine ⟨fun s => ⟨?_, rfl, rfl, rfl, rfl⟩, by decide,
    fun v => ⟨?_, rfl, rfl, rfl, rfl⟩⟩
  · cases s
    simp [destroyFloatingTerminal]
  · cases v
    simp [destroyTerminalV]

/-- C1 counterexample. The claim asserts (a) at most one of Floating-visible
and Docked-visible ever holds and (b) floating and docked sessions are never
simultaneously live because `openInSidebar` destroys the floating Session
even when it is hidden. Both parts fail on the code: after
`show; activate; hide; openInSidebar` the hidden floating session keeps its
live process (pid 0) while the docked session spawns pid 1 — two live
sessions; and after `openInSidebar; show` the floating surface is visible
while the docked view is still placed — both visible. -/
theorem claim1_counterexample :
    (run [Op.layoutReady, Op.showFloating, Op.rafFloating (Except.ok 0),
        Op.hideFloating, Op.openDocked (Except.ok 1)] initState).floatingPtyProcess
      = some 0 ∧
    dockedPty (run [Op.layoutReady, Op.showFloating, Op.rafFloating (Except.ok 0),
        Op.hideFloating, Op.openDocked (Except.ok 1)] initState) = some 1 ∧
    (run [Op.layoutReady, Op.openDocked (Except.ok 0), Op.showFloating]
        initState).isFloatingVisible = true ∧
    (run [Op.layoutReady, Op.openDocked (Except.ok 0), Op.showFloating]
        initState).dockedView ≠ none := by
  decide

/-- C1 amended: `openInSidebar` hides and destroys the floating Session
(terminal and process, the process being killed) before the docked Session
is constructed ONLY when the floating surface is currently visible; in that
case the result has no floating handles, Floating-visible is false and the
docked session is live. When the floating surface is hidden, the floating
Session is left untouched, so a hidden-but-live floating session and the
docked session can be simultaneously live. -/
theorem claim1_amended_visible_exclusion (s : PluginState) (pid : Nat)
    (hc : s.floatingContainer = true) (hv : s.isFloatingVisible = true) :
    (openInSidebar (Except.ok pid) s).floatingPtyProcess = none ∧
    (openInSidebar (Except.ok pid) s).floatingTerminal = none ∧
    (openInSidebar (Except.ok pid) s).floatingFitAddon = none ∧
    (openInSidebar (Except.ok pid) s).floatingResizeObserver = none ∧
    (openInSidebar (Except.ok pid) s).isFloatingVisible = false ∧
    dockedPty (openInSidebar (Except.ok pid) s) = some pid ∧
    (∀ q, s.floatingPtyProcess = some q → q ∈ (openInSidebar (Except.ok pid) s).killed) := by
  cases hd : s.dockedView <;>
    simp_all [openInSidebar, hideFloatingTerminal, destroyFloatingTerminal,
      setDockedView, viewStartPty, dockedPty]

/-- C1 amended witness: a visible, activated floating session (pid 0) gets
destroyed and killed by `openInSidebar`, which then spawns the docked
session (pid 1). -/
theorem claim1_amended_witness :
    (openInSidebar (Except.ok 1) floatLiveState).floatingPtyProcess = none ∧
    (openInSidebar (Except.ok 1) floatLiveState).isFloatingVisible = false ∧
    dockedPty (openInSidebar (Except.ok 1) floatLiveState) = some 1 ∧
    0 ∈ (openInSidebar (Except.ok 1) floatLiveState).killed := by
  have h := claim1_amended_visible_exclusion floatLiveState 1 (by decide) (by decide)
  exact ⟨h.1, h.2.2.2.2.1, h.2.2.2.2.2.1, h.2.2.2.2.2.2 0 (by decide)⟩

/-- C2: hiding preserves the floating Session while closing destroys it.
After `show; activate(pid 0); hide; show` the very same terminal and
process handles are in place and the spawn count is still 1 (no second
spawn); after `show; activate(pid 0); close; show; activate(pid 7)` the
terminal has been re-initialized (a different surface handle), a second
spawn has occurred and the process handle is the new pid. -/
theorem claim2_hide_preserves_close_respawns :
    (let sFirst := run [Op.showFloating, Op.rafFloating (Except.ok 0)]
        (createFloatingContainer initState)
     let sHide := run [Op.hideFloating, Op.showFloating] sFirst
     let sClose := run [Op.closeFloating, Op.showFloating,
        Op.rafFloating (Except.ok 7)] sFirst
     sFirst.spawnCount = 1 ∧ sFirst.floatingPtyProcess = some 0 ∧
     sHide.floatingPtyProcess = sFirst.floatingPtyProcess ∧
     sHide.floatingTerminal = sFirst.floatingTerminal ∧
     sHide.spawnCount = 1 ∧
     sClose.spawnCount = 2 ∧ sClose.floatingPtyProcess = some 7 ∧
     sClose.floatingTerminal ≠ sFirst.floatingTerminal) := by
  decide

/-- C3 counterexample. The claim asserts that EVERY spawn failure writes a
red error line PLUS the raw underlying error text into the terminal
surface. For the floating session this fails: a spawn that throws "ENOENT"
during floating activation leaves exactly one write — the red error line —
and the raw error text is nowhere in the surface output (the session is
indeed left with a live surface and a null process handle, so it is
precisely the raw-error-text part that the code omits, main.ts 557-560). -/
theorem claim3_counterexample :
    (run [Op.layoutReady, Op.showFloating, Op.rafFloating (Except.error "ENOENT")]
        initState).floatingOutput = [errLine] ∧
    rawErrWrite "ENOENT" ∉
      (run [Op.layoutReady, Op.showFloating, Op.rafFloating (Except.error "ENOENT")]
        initState).floatingOutput ∧
    (run [Op.layoutReady, Op.showFloating, Op.rafFloating (Except.error "ENOENT")]
        initState).floatingPtyProcess = none ∧
    (run [Op.layoutReady, Op.showFloating, Op.rafFloating (Except.error "ENOENT")]
        initState).floatingTerminal ≠ none := by
  decide

/-- C3 amended: every spawn failure is caught (both activation functions are
total and return a state instead of propagating). The docked session's
catch writes the red error line plus the raw error text and leaves every
handle unchanged — live surface, process handle still null; the floating
session's catch writes ONLY the red error line (no raw error text) and
likewise leaves the handles unchanged. -/
theorem claim3_amended_spawn_failure (v : ViewState) (s : PluginState) (e : String)
    (hv : v.terminal ≠ none) (hs : s.floatingTerminal ≠ none) :
    viewStartPty (Except.error e) v
      = { v with output := v.output ++ [errLine, rawErrWrite e] } ∧
    startFloatingPty (Except.error e) s
      = { s with floatingOutput := s.floatingOutput ++ [errLine] } := by
  constructor
  · cases ht : v.terminal with
    | none => exact absurd ht hv
    | some t => simp [viewStartPty, ht]
  · cases ht : s.floatingTerminal with
    | none => exact absurd ht hs
    | some t => simp [startFloatingPty, ht]

/-- C3 amended witness: concrete failed spawns on a constructed docked view
and on the constructed floating terminal. -/
theorem claim3_amended_witness :
    (viewStartPty (Except.error "ENOENT") sampleView).output
        = [errLine, rawErrWrite "ENOENT"] ∧
    (startFloatingPty (Except.error "ENOENT") floatConstructedState).floatingOutput
        = [errLine] := by
  have h := claim3_amended_spawn_failure sampleView floatConstructedState "ENOENT"
    (by decide) (by decide)
  refine ⟨?_, ?_⟩
  · rw [h.1]; decide
  · rw [h.2]; decide

/-- C5 counterexample. The claim asserts Destroy clears any pending
resize-debounce timer so that no dangling timer remains. It does not: a
resize notification schedules the 50 ms debounce timeout, and the close
button's hide-then-destroy leaves that timeout scheduled and uncancelled
(`destroyFloatingTerminal`, main.ts 563-583, never touches
`floatingFitDebounceTimer`). -/
theorem claim5_counterexample :
    floatClosedWithTimerState.floatingTimerPending = true ∧
    floatClosedWithTimerState.floatingFitDebounceTimer ≠ none ∧
    floatClosedWithTimerState.floatingTerminal = none ∧
    floatClosedWithTimerState.floatingPtyProcess = none := by
  decide

/-- C5 amended: Destroy does NOT cancel a pending debounce timeout, but the
timeout's callback is guarded by a liveness check on the fit-addon, terminal
and process handles, so a timer that fires after teardown (any handle null)
changes no handle, performs no fit, and merely expires; destroy always
leaves the fit-addon null, making every later firing inert while torn down;
and Construct followed immediately by Destroy without Activate leaves no
process handle and no pending timer at all. -/
theorem claim5_amended_guarded_timer (s : PluginState)
    (h : s.floatingFitAddon = none ∨ s.floatingTerminal = none ∨
        s.floatingPtyProcess = none) :
    ((floatingDebounceFire s).floatingTerminal = s.floatingTerminal ∧
     (floatingDebounceFire s).floatingPtyProcess = s.floatingPtyProcess ∧
     (floatingDebounceFire s).floatingFitAddon = s.floatingFitAddon ∧
     (floatingDebounceFire s).fitCount = s.fitCount ∧
     (floatingDebounceFire s).floatingTimerPending = false) ∧
    (destroyFloatingTerminal s).floatingFitAddon = none ∧
    (let s0 := run [Op.layoutReady, Op.showFloating, Op.closeFloating] initState
     s0.floatingPtyProcess = none ∧ s0.floatingTimerPending = false ∧
     s0.floatingFitDebounceTimer = none) := by
  refine ⟨?_, rfl, by decide⟩
  unfold floatingDebounceFire
  by_cases hp : s.floatingTimerPending = true
  · rw [if_pos hp]
    rcases h with h | h | h <;> simp [h]
  · rw [if_neg hp]
    simp at hp
    exact ⟨rfl, rfl, rfl, rfl, hp⟩

/-- C5 amended witness: the state destroyed with a still-pending timeout —
the late firing expires the timeout without resurrecting or touching any
handle and without performing a fit. -/
theorem claim5_amended_witness :
    (floatingDebounceFire floatClosedWithTimerState).floatingTerminal
        = floatClosedWithTimerState.floatingTerminal ∧
    (floatingDebounceFire floatClosedWithTimerState).fitCount
        = floatClosedWithTimerState.fitCount ∧
    (floatingDebounceFire floatClosedWithTimerState).floatingTimerPending = false := by
  have h := (claim5_amended_guarded_timer floatClosedWithTimerState
    (Or.inl (by decide))).1
  exact ⟨h.1, h.2.2.2.1, h.2.2.2.2⟩

/-- C10: before the host layout-ready callback has created the floating
container, `showFloatingTerminal`, `hideFloatingTerminal` and
`toggleFloatingTerminal` return the state completely unchanged — no error,
no terminal surface or process constructed, visibility flag untouched — and
in the initial (pre-layout) state that flag is false. -/
theorem claim10_noops_before_container (s : PluginState)
    (h : s.floatingContainer = false) :
    showFloatingTerminal s = s ∧
    hideFloatingTerminal s = s ∧
    toggleFloatingTerminal s = s ∧
    initState.floatingContainer = false ∧
    initState.isFloatingVisible = false := by
  have hgoal : showFloatingTerminal s = s ∧ hideFloatingTerminal s = s := by
    constructor
    · unfold showFloatingTerminal
      rw [if_neg (by simp [h])]
    · unfold hideFloatingTerminal
      rw [if_neg (by simp [h])]
  refine ⟨hgoal.1, hgoal.2, ?_, by decide, by decide⟩
  unfold toggleFloatingTerminal
  by_cases hv : s.isFloatingVisible = true
  · rw [if_pos hv]; exact hgoal.2
  · rw [if_neg hv]; exact hgoal.1

/-- C10 witness: on the freshly loaded plugin state (container not yet
created) all three operations are no-ops. -/
theorem claim10_witness :
    showFloatingTerminal initState = initState ∧
    hideFloatingTerminal initState = initState ∧
    toggleFloatingTerminal initState = initState := by
  have h := claim10_noops_before_container initState (by decide)
  exact ⟨h.1, h.2.1, h.2.2.1⟩

theorem aInv_astep (t0 : Nat) (s : AutoLaunchState) (op : AOp)
    (hop : ∀ b, op ≠ AOp.spawn b) (h : aInv t0 s) : aInv t0 (astep s op) := by
  obtain ⟨hp, ht⟩ := h
  cases op with
  | advance d => exact ⟨hp, ht⟩
  | spawn b => exact absurd rfl (hop b)
  | close => exact ⟨Or.inl rfl, ht⟩
  | fire =>
      rcases ht with ⟨ht, hi⟩ | ⟨ht, hlen, hall⟩
      · by_cases hd : t0 + 300 ≤ s.now
        · have hres : astep s AOp.fire
              = { s with timers := []
                       , injections := s.injections ++
                           (match s.pty with
                            | some (aid, _) => [(s.now, aid)]
                            | none => []) } := by
            simp [astep, ht, hd]
          rw [hres]
          rcases hp with hp | hp
          · exact ⟨Or.inl hp, Or.inr ⟨rfl, by simp [hp, hi], by simp [hp, hi]⟩⟩
          · refine ⟨Or.inr hp, Or.inr ⟨rfl, by simp [hp, hi], ?_⟩⟩
            intro x hx
            simp [hp, hi] at hx
            subst hx
            exact ⟨hd, rfl⟩
        · have hres : astep s AOp.fire = s := by simp [astep, ht, hd]
          rw [hres]
          exact ⟨hp, Or.inl ⟨ht, hi⟩⟩
      · have hres : astep s AOp.fire = s := by simp [astep, ht]
        rw [hres]
        exact ⟨hp, Or.inr ⟨ht, hlen, hall⟩⟩

theorem aInv_arun (t0 : Nat) (ops : List AOp) :
    ∀ s : AutoLaunchState, (∀ b, AOp.spawn b ∉ ops) → aInv t0 s →
      aInv t0 (arun ops s) := by
  induction ops with
  | nil => exact fun _ _ h => h
  | cons op ops ih =>
      intro s hsp h
      refine ih (astep s op) (fun b hm => hsp b (List.mem_cons_of_mem op hm)) ?_
      refine aInv_astep t0 s op (fun b he => hsp b ?_) h
      rw [← he]
      exact List.mem_cons_self op ops

theorem aInvLive_astep (t0 : Nat) (s : AutoLaunchState) (op : AOp)
    (hop : ∀ b, op ≠ AOp.spawn b) (hcl : op ≠ AOp.close)
    (h : aInvLive t0 s) : aInvLive t0 (astep s op) := by
  obtain ⟨hp, ht⟩ := h
  cases op with
  | advance d => exact ⟨hp, ht⟩
  | spawn b => exact absurd rfl (hop b)
  | close => exact absurd rfl hcl
  | fire =>
      rcases ht with ⟨ht, hi⟩ | ⟨ht, hlen, hall⟩
      · by_cases hd : t0 + 300 ≤ s.now
        · have hres : astep s AOp.fire
              = { s with timers := []
                       , injections := s.injections ++ [(s.now, 0)] } := by
            simp [astep, ht, hd, hp]
          rw [hres]
          refine ⟨hp, Or.inr ⟨rfl, by simp [hi], ?_⟩⟩
          intro x hx
          simp [hi] at hx
          subst hx
          exact ⟨hd, rfl⟩
        · have hres : astep s AOp.fire = s := by simp [astep, ht, hd]
          rw [hres]
          exact ⟨hp, Or.inl ⟨ht, hi⟩⟩
      · have hres : astep s AOp.fire = s := by simp [astep, ht]
        rw [hres]
        exact ⟨hp, Or.inr ⟨ht, hlen, hall⟩⟩

theorem aInvLive_arun (t0 : Nat) (ops : List AOp) :
    ∀ s : AutoLaunchState, (∀ b, AOp.spawn b ∉ ops) → AOp.close ∉ ops →
      aInvLive t0 s → aInvLive t0 (arun ops s) := by
  induction ops with
  | nil => exact fun _ _ _ h => h
  | cons op ops ih =>
      intro s hsp hcl h
      refine ih (astep s op) (fun b hm => hsp b (List.mem_cons_of_mem op hm))
        (fun hm => hcl (List.mem_cons_of_mem op hm)) ?_
      refine aInvLive_astep t0 s op (fun b he => hsp b ?_) (fun he => hcl ?_) h
      · rw [← he]
        exact List.mem_cons_self op ops
      · rw [← he]
        exact List.mem_cons_self op ops

theorem a_disabled_arun (ops : List AOp) :
    ∀ s : AutoLaunchState, (∀ b, AOp.spawn b ∉ ops) → s.timers = [] →
      (arun ops s).injections = s.injections ∧ (arun ops s).timers = [] := by
  induction ops with
  | nil => exact fun _ _ ht => ⟨rfl, ht⟩
  | cons op ops ih =>
      intro s hsp ht
      have hsp2 : ∀ b, AOp.spawn b ∉ ops :=
        fun b hm => hsp b (List.mem_cons_of_mem op hm)
      cases op with
      | advance d => exact ih _ hsp2 ht
      | spawn b => exact absurd (List.mem_cons_self _ _) (hsp b)
      | close => exact ih _ hsp2 ht
      | fire =>
          have hres : astep s AOp.fire = s := by simp [astep, ht]
          have hgoal := ih s hsp2 ht
          simpa [arun, List.foldl_cons, hres] using hgoal

/-- C7 counterexample. The claim asserts the assistant command is injected
into the process input stream exactly once per Session activation, at least
300 ms after spawn and never before. It is false on the floating path: the
timeout handle is never stored so destroy cannot cancel it, and the timeout
body writes into the plugin's CURRENT process field. On the schedule
activate(t=0); close(t=100); reactivate(t=150); the stale first timeout
fires at t=300 and injects into the SECOND activation's process — only
150 ms after that activation's spawn (300 < 150 + 300) — and the second
activation's own timeout injects again at t=450: two injections for one
activation, the first of them early. -/
theorem claim7_counterexample :
    (arun staleTimerOps (aInit 0)).injections = [(300, 1), (450, 1)] ∧
    (1, 150) ∈ (arun staleTimerOps (aInit 0)).spawns ∧
    300 < 150 + 300 := by
  decide

/-- C7 amended: when `autoLaunchClaude` is enabled, each successful spawn
schedules exactly one injection timeout due 300 ms after that spawn (none
when disabled), and an injection is delivered only while a process handle
is live. For a floating session activated once and not followed by another
activation, every injection happens at least 300 ms after that spawn and
into that activation, at most one injection ever happens — exactly one on
close-free schedules that consume the timeout — and with the setting
disabled no injection occurs. (Destroy does not cancel the pending timeout,
so a close-and-reactivate within the 300 ms window can route the stale
injection into the next activation early — see the counterexample.) -/
theorem claim7_amended_autolaunch (t0 : Nat) (tail : List AOp)
    (hsp : ∀ b, AOp.spawn b ∉ tail) :
    (∀ s : AutoLaunchState,
        (astep s (AOp.spawn true)).timers = s.timers ++ [s.now + 300] ∧
        (astep s (AOp.spawn false)).timers = s.timers) ∧
    (∀ x ∈ (arun tail (astep (aInit t0) (AOp.spawn true))).injections,
        t0 + 300 ≤ x.1 ∧ x.2 = 0) ∧
    (arun tail (astep (aInit t0) (AOp.spawn true))).injections.length ≤ 1 ∧
    (AOp.close ∉ tail →
        (arun tail (astep (aInit t0) (AOp.spawn true))).timers = [] →
        (arun tail (astep (aInit t0) (AOp.spawn true))).injections.length = 1) ∧
    (arun tail (astep (aInit t0) (AOp.spawn false))).injections = [] := by
  have hbase : aInv t0 (astep (aInit t0) (AOp.spawn true)) := by
    refine ⟨Or.inr ?_, Or.inl ⟨?_, rfl⟩⟩ <;> simp [astep, aInit]
  have hg := aInv_arun t0 tail (astep (aInit t0) (AOp.spawn true)) hsp hbase
  refine ⟨fun s => ⟨by simp [astep], by simp [astep]⟩, ?_, ?_, ?_, ?_⟩
  · rcases hg.2 with ⟨ht, hi⟩ | ⟨ht, hlen, hall⟩
    · intro x hx
      rw [hi] at hx
      exact absurd hx (by simp)
    · exact hall
  · rcases hg.2 with ⟨ht, hi⟩ | ⟨ht, hlen, hall⟩
    · simp [hi]
    · exact hlen
  · intro hcl hte
    have hlive : aInvLive t0 (arun tail (astep (aInit t0) (AOp.spawn true))) := by
      refine aInvLive_arun t0 tail _ hsp hcl ⟨?_, Or.inl ⟨?_, rfl⟩⟩ <;>
        simp [astep, aInit]
    rcases hlive.2 with ⟨ht, _⟩ | ⟨_, hlen, _⟩
    · rw [hte] at ht
      exact absurd ht (by simp)
    · exact hlen
  · have hd := a_disabled_arun tail (astep (aInit t0) (AOp.spawn false)) hsp
      (by simp [astep, aInit])
    rw [hd.1]
    rfl

/-- C7 amended witness: a single activation at time 0, 300 ms pass, the
timeout fires — exactly one injection; the same schedule with the setting
off injects nothing. -/
theorem claim7_amended_witness :
    (arun [AOp.advance 300, AOp.fire]
        (astep (aInit 0) (AOp.spawn true))).injections.length = 1 ∧
    (arun [AOp.advance 300, AOp.fire]
        (astep (aInit 0) (AOp.spawn false))).injections = [] := by
  have h := claim7_amended_autolaunch 0 [AOp.advance 300, AOp.fire] (by decide)
  exact ⟨h.2.2.2.1 (by decide) (by decide), h.2.2.2.2⟩

/-- C8: both spawn call sites pass exactly the configured shell executable,
an empty argument list, pseudo-terminal name "xterm-256color", the terminal
surface's current grid as initial columns and rows, the vault base path as
working directory, and the inherited environment with TERM and COLORTERM
forced — i.e. the code's spawn call agrees with the spec's §6 process spawn
contract field by field, with the two forced variables taking exactly the
forced values and every other variable inherited. -/
theorem claim8_spawn_contract (stg : ClaudeTerminalSettings) (c r : Nat)
    (vp : String) (penv : String → Option String) :
    (ptySpawnCall stg c r vp penv).file = stg.shellPath ∧
    (ptySpawnCall stg c r vp penv).args = [] ∧
    (ptySpawnCall stg c r vp penv).ptyName = "xterm-256color" ∧
    (ptySpawnCall stg c r vp penv).cols = c ∧
    (ptySpawnCall stg c r vp penv).rows = r ∧
    (ptySpawnCall stg c r vp penv).cwd = vp ∧
    (∀ k, (ptySpawnCall stg c r vp penv).env k = (specSpawnContract stg c r vp penv).env k) ∧
    (ptySpawnCall stg c r vp penv).env "TERM" = some "xterm-256color" ∧
    (ptySpawnCall stg c r vp penv).env "COLORTERM" = some "truecolor" ∧
    (∀ k, k ≠ "TERM" → k ≠ "COLORTERM" → (ptySpawnCall stg c r vp penv).env k = penv k) := by
  refine ⟨rfl, rfl, rfl, rfl, rfl, rfl, ?_, by simp [ptySpawnCall, jsSpreadSet],
    by simp [ptySpawnCall, jsSpreadSet], ?_⟩
  · intro k
    by_cases h1 : k = "TERM"
    · subst h1
      simp [ptySpawnCall, specSpawnContract, jsSpreadSet]
    · by_cases h2 : k = "COLORTERM"
      · subst h2
        simp [ptySpawnCall, specSpawnContract, jsSpreadSet]
      · simp [ptySpawnCall, specSpawnContract, jsSpreadSet, h1, h2]
  · intro k h1 h2
    simp [ptySpawnCall, jsSpreadSet, h1, h2]

/-- C8 witness: a concrete environment — the two forced variables take the
forced values, any other variable (here "PATH") is inherited unchanged. -/
theorem claim8_witness :
    (ptySpawnCall DEFAULT_SETTINGS 80 24 "/vault"
        (fun k => if k = "PATH" then some "/usr/bin" else none)).env "TERM"
      = some "xterm-256color" ∧
    (ptySpawnCall DEFAULT_SETTINGS 80 24 "/vault"
        (fun k => if k = "PATH" then some "/usr/bin" else none)).env "PATH"
      = some "/usr/bin" := by
  have h := claim8_spawn_contract DEFAULT_SETTINGS 80 24 "/vault"
    (fun k => if k = "PATH" then some "/usr/bin" else none)
  refine ⟨h.2.2.2.2.2.2.2.1, ?_⟩
  rw [h.2.2.2.2.2.2.2.2.2 "PATH" (by decide) (by decide)]
  decide

theorem deb_burstTail (ds : List Nat) (s : DebounceState)
    (hds : ∀ d ∈ ds, d < 50) (hp : s.pendingFit = some (s.now + 50)) :
    (drun (burstTail ds) s).pendingFit = some ((drun (burstTail ds) s).now + 50) ∧
    (drun (burstTail ds) s).fits = s.fits ∧
    (drun (burstTail ds) s).live = s.live := by
  induction ds generalizing s with
  | nil => exact ⟨hp, rfl, rfl⟩
  | cons d ds ih =>
      have hd : d < 50 := hds d (List.mem_cons_self d ds)
      have hnotdue : ¬ s.now + 50 ≤ s.now + d := by omega
      have hstep : drun (burstTail (d :: ds)) s
          = drun (burstTail ds)
              (dstep (dstep (dstep s (DOp.advance d)) DOp.fire) DOp.notify) := rfl
      rw [hstep]
      have hfire : dstep (dstep s (DOp.advance d)) DOp.fire
          = dstep s (DOp.advance d) := by
        simp [dstep, hp, hnotdue]
      rw [hfire]
      exact ih _ (fun x hx => hds x (List.mem_cons_of_mem d hx)) rfl

/-- C9: any burst of container-resize notifications in which consecutive
notifications are separated by less than 50 ms — with the event loop free to
attempt the debounce timeout between any two of them — followed by a 50 ms
quiet period, produces exactly ONE fit of the live terminal grid (and hence
at most one process resize call), not one per notification. -/
theorem claim9_debounce_collapses (t0 : Nat) (ds : List Nat)
    (hds : ∀ d ∈ ds, d < 50) :
    (drun (burstThenQuiet ds) (initDeb t0)).fits = 1 := by
  have hsplit : drun (burstThenQuiet ds) (initDeb t0)
      = drun [DOp.advance 50, DOp.fire]
          (drun (burstTail ds) (dstep (initDeb t0) DOp.notify)) := by
    simp [burstThenQuiet, drun, List.foldl_append]
  rw [hsplit]
  have hb := deb_burstTail ds (dstep (initDeb t0) DOp.notify) hds rfl
  set sB := drun (burstTail ds) (dstep (initDeb t0) DOp.notify) with hsB
  have hlive : sB.live = true := by rw [hb.2.2]; rfl
  have hfits : sB.fits = 0 := by rw [hb.2.1]; rfl
  have hdue : sB.now + 50 ≤ sB.now + 50 := le_refl _
  simp [drun, dstep, hb.1, hdue, hlive, hfits]

/-- C9 witness: five resize notifications 10 ms apart (with fire attempts
in between), then a 50 ms quiet period — exactly one fit happens. -/
theorem claim9_witness :
    (drun (burstThenQuiet [10, 10, 10, 10]) (initDeb 0)).fits = 1 :=
  claim9_debounce_collapses 0 [10, 10, 10, 10] (by decide)

end ClaudeTerminal
